import Mathlib

/-!
Shallow embedding of `src/src/animation/editor/animation_editor.cpp`
(LumixEngine, class `AnimEditor::AnimationEditor`).

The file under verification is the GUI layer of the animation-controller
editor.  Its operations mutate a small amount of editor-owned state
(`m_path`, `m_resource`, `m_container`, `m_offset`, `m_event_types`) and the
resource-owned slot/animation-set tables, and they call out to external
services: the platform file dialogs, `FS::OsFile`, the resource manager and
the immediate-mode GUI library.

The embedding models editor state as a structure, and each external call as
either an input read from an `Env` record (dialog results, file contents,
the outcome of `ControllerResource::deserialize`, the freshly allocated
resource) or an event appended to a trace (file opens/writes, resource
news/deletes, log calls, which menu items were rendered).  Unused `Env`
fields are deliberate: the C++ ignores the return values of
`OsFile::open/read/write`, so the model carries those results and, like the
source, never consults them.

`crc32` is external to the file under review, so every definition that the
source routes through `crc32` is parameterised by an arbitrary hash
function `crc : String → Nat`.
-/

namespace AnimEd

/-- One entry of `AnimationEditor::m_event_types`
(`IAnimationEditor::EventType`): a crc32 type tag plus the fields the
constructor fills in. -/
structure EventType where
  type : Nat
  size : Nat
  label : String
deriving Repr, DecidableEq

/-- One entry of `Anim::ControllerResource::m_animation_set`
(`AnimSetEntry`): set (column) index, slot-name hash, and the bound
animation, modelled by its path (`none` = null pointer). -/
structure AnimSetEntry where
  set : Nat
  hash : Nat
  animation : Option String
deriving Repr, DecidableEq

/-- The editor-side `AnimEditor::ControllerResource`, abstracted to its heap
identity and the identity of its root container (`getRoot()`). -/
structure Res where
  id : Nat
  root : Nat
deriving Repr, DecidableEq

/-- The mutable state of `AnimationEditor` that the file-menu operations and
`drawGraph` touch: `m_path`, `m_resource`, `m_container`, `m_offset`,
`m_event_types`. -/
structure Editor where
  path : String
  resource : Res
  container : Nat
  offset : Int × Int
  eventTypes : List EventType
deriving Repr, DecidableEq

/-- Results of the `FS::OsFile` calls made by `save` and `load`.  The engine
API returns a `bool` from `open`/`read`/`write`; the editor code ignores all
of them, and so does every definition below. -/
structure FileResults where
  openOk : Bool
  readOk : Bool
  writeOk : Bool
deriving Repr, DecidableEq

/-- The external world as seen by one invocation of an editor operation:
dialog outcomes (`none` = the user cancelled), the bytes on disk per path,
whether `ControllerResource::deserialize` succeeds, the fresh
`ControllerResource` that `LUMIX_NEW` would produce, the blob that
`ControllerResource::serialize` writes, and the controller source path of
the selected entity (`none` = no selected entity or no controller
component). -/
structure Env where
  fileResults : FileResults
  saveDialog : Option String
  openDialog : Option String
  fileContent : String → List Nat
  deserializeOk : Bool
  freshRes : Res
  serializeBlob : Res → List Nat
  controllerSource : Option String

/-- Trace events: one constructor per externally visible call the editor
code makes. -/
inductive Ev where
  | saveDialog (filter : String)
  | openDialog (filter : String)
  | serialize
  | fileOpen (path : String) (mode : String)
  | fileRead
  | fileWrite (data : List Nat)
  | fileClose
  | deleteRes (id : Nat)
  | newRes (id : Nat)
  | deserialize (bytes : List Nat)
  | logError (msg : String)
  | menuItem (label : String)
deriving Repr, DecidableEq

/-- The file-dialog filter string passed at every dialog call site:
`"Animation controllers\0*.act\0"`. -/
def actFilter : String := "Animation controllers\x00*.act\x00"

/-- The filter argument of a dialog event, `none` for non-dialog events. -/
def Ev.dialogFilter : Ev → Option String
  | .saveDialog f => some f
  | .openDialog f => some f
  | _ => none

/-- The label of a rendered menu-item event, `none` for every other
event. -/
def Ev.menuLabel? : Ev → Option String
  | .menuItem l => some l
  | _ => none

/-- The non-menu (operation) events of a trace. -/
def opsOf (tr : List Ev) : List Ev :=
  tr.filter fun ev => (Ev.menuLabel? ev).isNone

/-- The writing half of `AnimationEditor::save` (lines after the dialog
check): serialize the resource to a blob, open `m_path` for writing, write
the blob, close.  None of the file-call results is consulted. -/
def writeOut (e : Editor) (env : Env) : Editor × List Ev :=
  let blob := env.serializeBlob e.resource
  (e, [.serialize, .fileOpen e.path "CREATE_AND_WRITE", .fileWrite blob, .fileClose])

/-- `AnimationEditor::save`: when `m_path` is empty, ask for a filename
(writing the answer into `m_path`) and return if the dialog is cancelled;
then serialize and write to `m_path`. -/
def save (e : Editor) (env : Env) : Editor × List Ev :=
  if e.path = "" then
    match env.saveDialog with
    | none => (e, [.saveDialog actFilter])
    | some p =>
      let r := writeOut { e with path := p } env
      (r.1, .saveDialog actFilter :: r.2)
  else
    writeOut e env

/-- `AnimationEditor::saveAs`: always ask for a filename (writing the answer
into `m_path`), return if cancelled, otherwise call `save`. -/
def saveAs (e : Editor) (env : Env) : Editor × List Ev :=
  match env.saveDialog with
  | none => (e, [.saveDialog actFilter])
  | some p =>
    let r := save { e with path := p } env
    (r.1, .saveDialog actFilter :: r.2)

/-- `AnimationEditor::load`: open `m_path`, read its bytes, deserialize.  On
success keep the resource and point `m_container` at its root; on failure
destroy the resource, allocate a fresh `ControllerResource` and point
`m_container` at the fresh root.  The `open`/`read` results are never
consulted. -/
def load (e : Editor) (env : Env) : Editor × List Ev :=
  let data := env.fileContent e.path
  if env.deserializeOk then
    ({ e with container := e.resource.root },
      [.fileOpen e.path "OPEN_AND_READ", .fileRead, .deserialize data, .fileClose])
  else
    ({ e with resource := env.freshRes, container := env.freshRes.root },
      [.fileOpen e.path "OPEN_AND_READ", .fileRead, .deserialize data,
        .deleteRes e.resource.id, .newRes env.freshRes.id, .fileClose])

/-- `AnimationEditor::loadFromFile`: open-file dialog into `m_path`, return
if cancelled, otherwise `load`. -/
def loadFromFile (e : Editor) (env : Env) : Editor × List Ev :=
  match env.openDialog with
  | none => (e, [.openDialog actFilter])
  | some p =>
    let r := load { e with path := p } env
    (r.1, .openDialog actFilter :: r.2)

/-- `AnimationEditor::loadFromEntity`: return when no entity is selected or
the selected entity has no controller component; otherwise copy the
component's controller source into `m_path` and `load`. -/
def loadFromEntity (e : Editor) (env : Env) : Editor × List Ev :=
  match env.controllerSource with
  | none => (e, [])
  | some src => load { e with path := src } env

/-- `AnimationEditor::newController`: destroy the resource, allocate a fresh
`ControllerResource`, point `m_container` at its root, clear `m_path`. -/
def newController (e : Editor) (env : Env) : Editor × List Ev :=
  ({ e with resource := env.freshRes, container := env.freshRes.root, path := "" },
    [.deleteRes e.resource.id, .newRes env.freshRes.id])

/-- GUI inputs consumed by one `menuGUI` frame: whether `BeginMenuBar` and
`BeginMenu("File")` succeed, and which menu items report a click. -/
structure MenuInput where
  menuBarOpen : Bool
  fileMenuOpen : Bool
  clicked : String → Bool

/-- The body of the `File` menu in `AnimationEditor::menuGUI`: the five
`MenuItem` calls in source order, each dispatching to its operation when
clicked.  Each rendered item leaves a `menuItem` event in the trace. -/
def fileMenuGUI (e : Editor) (clicked : String → Bool) (env : Env) :
    Editor × List Ev :=
  let s1 := if clicked "New" then newController e env else (e, [])
  let s2 := if clicked "Save" then save s1.1 env else (s1.1, [])
  let s3 := if clicked "Save As" then saveAs s2.1 env else (s2.1, [])
  let s4 := if clicked "Open" then loadFromFile s3.1 env else (s3.1, [])
  let s5 := if clicked "Open from selected entity" then loadFromEntity s4.1 env
    else (s4.1, [])
  (s5.1,
    .menuItem "New" :: s1.2 ++ .menuItem "Save" :: s2.2 ++
      .menuItem "Save As" :: s3.2 ++ .menuItem "Open" :: s4.2 ++
      .menuItem "Open from selected entity" :: s5.2)

/-- `AnimationEditor::menuGUI`: menu bar with the `File` menu and the
`Go up` item (enabled only when the container has a parent; `parent` is the
parent container of `m_container`, `none` at the root). -/
def menuGUI (e : Editor) (mi : MenuInput) (env : Env)
    (parent : Option Nat) : Editor × List Ev :=
  if mi.menuBarOpen then
    let s1 := if mi.fileMenuOpen then fileMenuGUI e mi.clicked env else (e, [])
    let s2 :=
      match parent with
      | some p =>
        if mi.clicked "Go up" then ({ s1.1 with container := p }, [Ev.menuItem "Go up"])
        else (s1.1, [Ev.menuItem "Go up"])
      | none => (s1.1, [Ev.menuItem "Go up"])
    (s2.1, s1.2 ++ s2.2)
  else (e, [])

/-- GUI inputs consumed by one `drawGraph` frame: `IsWindowHovered`,
`IsAnyItemActive`, `IsMouseDragging` (by button and threshold) and the
frame's `MouseDelta`. -/
structure GuiFrame where
  windowHovered : Bool
  anyItemActive : Bool
  isMouseDragging : Nat → Int → Bool
  mouseDelta : Int × Int

/-- The panning part of `AnimationEditor::drawGraph`: `m_offset` is bumped
by the frame's mouse delta exactly when the canvas is hovered, no item is
active, and button 2 drags with threshold `0`.  The rest of `drawGraph`
only reads state. -/
def drawGraph (e : Editor) (g : GuiFrame) : Editor :=
  if g.windowHovered && !g.anyItemActive && g.isMouseDragging 2 0 then
    { e with offset := (e.offset.1 + g.mouseDelta.1, e.offset.2 + g.mouseDelta.2) }
  else e

/-- `AnimationEditor::getEventType`: first entry of `m_event_types` whose
`type` tag equals the argument, else the entry at index 0.  The index-0
fallback is partial on an empty list; `Option` models that partiality. -/
def getEventType (ets : List EventType) (t : Nat) : Option EventType :=
  match ets.find? (fun i => i.type == t) with
  | some e => some e
  | none => ets.head?

/-- `AnimationEditor::createEventType`: emplace a default entry and set its
`type` to the hash of the name. -/
def createEventType (ets : List EventType) (crc : String → Nat)
    (type : String) : List EventType :=
  ets ++ [{ type := crc type, size := 0, label := "" }]

/-- `m_event_types` as the `AnimationEditor` constructor leaves it: it
starts empty, the constructor calls `createEventType "set_input"` and then
sets the new entry's `size` (to `sizeof(Anim::SetInputEvent)`, external,
hence a parameter) and `label`. -/
def initEventTypes (crc : String → Nat) (setInputEventSize : Nat) :
    List EventType :=
  [{ type := crc "set_input", size := setInputEventSize, label := "Set Input" }]

/-- The slot-rename handler in `AnimationEditor::animationSlotsGUI` (the
`InputText##name` branch) for slot `i` and the entered `newName`: if any
slot already carries `newName`, log an error and change nothing; otherwise
rewrite every animation-set entry hashed with the old name to the new hash
and store the new name in slot `i`. -/
def renameSlot (crc : String → Nat) (slots : List String)
    (animSet : List AnimSetEntry) (i : Nat) (newName : String) :
    (List String × List AnimSetEntry) × Bool :=
  let slot := slots.getD i ""
  if slots.any (fun v => v == newName) then
    ((slots, animSet), true)
  else
    let oldHash := crc slot
    let newHash := crc newName
    ((slots.set i newName,
      animSet.map fun entry =>
        if entry.hash = oldHash then { entry with hash := newHash } else entry),
      false)

/-- The `Add slot (row)` button handler in
`AnimationEditor::animationSlotsGUI`: if a slot with an empty name exists,
log an error and change nothing; otherwise emplace an empty-named slot. -/
def addSlot (slots : List String) : List String × Bool :=
  if slots.any (fun v => v == "") then (slots, true)
  else (slots ++ [""], false)

/-! Concrete fixtures used by the witness theorems. -/

/-- An editor state with an empty path. -/
def edW : Editor :=
  { path := "", resource := ⟨1, 2⟩, container := 2, offset := (10, 20),
    eventTypes := [] }

/-- An editor state with a nonempty path. -/
def edP : Editor :=
  { path := "c.act", resource := ⟨1, 2⟩, container := 2, offset := (10, 20),
    eventTypes := [] }

/-- An environment where both dialogs are confirmed and deserialization
succeeds. -/
def envW : Env :=
  { fileResults := ⟨true, true, true⟩, saveDialog := some "a.act",
    openDialog := some "b.act", fileContent := fun _ => [1, 2],
    deserializeOk := true, freshRes := ⟨7, 8⟩, serializeBlob := fun _ => [9],
    controllerSource := some "s.act" }

/-- An environment where both dialogs are cancelled and deserialization
fails. -/
def envN : Env :=
  { fileResults := ⟨false, false, false⟩, saveDialog := none,
    openDialog := none, fileContent := fun _ => [1, 2],
    deserializeOk := false, freshRes := ⟨7, 8⟩, serializeBlob := fun _ => [9],
    controllerSource := none }

/-- A frame where the panning condition holds. -/
def gOn : GuiFrame :=
  { windowHovered := true, anyItemActive := false,
    isMouseDragging := fun _ _ => true, mouseDelta := (3, 4) }

/-- A frame where the canvas is not hovered. -/
def gOff : GuiFrame :=
  { windowHovered := false, anyItemActive := false,
    isMouseDragging := fun _ _ => true, mouseDelta := (3, 4) }

/-! Theorems settling the claims. -/

/-- C6: on any `drawGraph` frame, the stored canvas offset is incremented
componentwise by the frame's mouse delta exactly when the canvas window is
hovered, no item is active, and mouse button 2 is dragging with zero
threshold, and in every other case the whole editor state — the offset
included — is left unchanged. -/
theorem drawGraph_offset_spec (e : Editor) (g : GuiFrame) :
    ((g.windowHovered = true ∧ g.anyItemActive = false ∧
        g.isMouseDragging 2 0 = true) →
      drawGraph e g =
        { e with offset := (e.offset.1 + g.mouseDelta.1, e.offset.2 + g.mouseDelta.2) }) ∧
    (¬(g.windowHovered = true ∧ g.anyItemActive = false ∧
        g.isMouseDragging 2 0 = true) →
      drawGraph e g = e) := by
  constructor
  · rintro ⟨h1, h2, h3⟩
    simp [drawGraph, h1, h2, h3]
  · intro h
    unfold drawGraph
    rw [if_neg]
    intro hc
    simp only [Bool.and_eq_true, Bool.not_eq_true'] at hc
    exact h ⟨hc.1.1, hc.1.2, hc.2⟩

/-- Witness for C6: on a concrete hovered dragging frame the offset moves by
the delta, and on a concrete non-hovered frame the state is unchanged. -/
theorem drawGraph_offset_spec_witness :
    drawGraph edW gOn =
      { edW with offset := (edW.offset.1 + gOn.mouseDelta.1, edW.offset.2 + gOn.mouseDelta.2) } ∧
    drawGraph edW gOff = edW :=
  ⟨(drawGraph_offset_spec edW gOn).1 ⟨rfl, rfl, rfl⟩,
    (drawGraph_offset_spec edW gOff).2 (fun h => Bool.noConfusion h.1)⟩

/-- C10: the `Add slot (row)` handler keeps at most one empty-named slot:
when an empty-named slot exists it changes nothing and logs an error,
otherwise it appends exactly one empty-named slot; consequently the
invariant `count of empty names ≤ 1` is preserved. -/
theorem addSlot_spec (slots : List String) :
    ("" ∈ slots → addSlot slots = (slots, true)) ∧
    ("" ∉ slots → addSlot slots = (slots ++ [""], false)) ∧
    (slots.count "" ≤ 1 → (addSlot slots).1.count "" ≤ 1) := by
  by_cases h : "" ∈ slots
  · have hany : slots.any (fun v => v == "") = true := by
      simp only [List.any_eq_true, beq_iff_eq]
      exact ⟨"", h, rfl⟩
    refine ⟨fun _ => ?_, fun h2 => absurd h h2, fun hc => ?_⟩
    · simp [addSlot, hany]
    · simpa [addSlot, hany] using hc
  · have hany : slots.any (fun v => v == "") = false := by
      simp only [List.any_eq_false, beq_iff_eq]
      intro x hx he
      exact h (he ▸ hx)
    refine ⟨fun h2 => absurd h2 h, fun _ => ?_, fun _ => ?_⟩
    · simp [addSlot, hany]
    · have hz : slots.count "" = 0 := List.count_eq_zero.2 h
      simp [addSlot, hany, List.count_append, hz]

/-- Witness for C10: concrete lists with and without an empty slot. -/
theorem addSlot_spec_witness :
    addSlot ["a", ""] = (["a", ""], true) ∧
    addSlot ["a", "b"] = (["a", "b"] ++ [""], false) ∧
    (addSlot ["a", "b"]).1.count "" ≤ 1 :=
  ⟨(addSlot_spec ["a", ""]).1 (by decide),
    (addSlot_spec ["a", "b"]).2.1 (by decide),
    (addSlot_spec ["a", "b"]).2.2 (by decide)⟩

/-- C1: in `load`, a failed deserialization destroys the old resource,
replaces it by a freshly constructed one and resets the container to the
fresh root; a successful deserialization keeps the resource, sets the
container to its root and changes nothing else, with no resource destroyed
or created. -/
theorem load_spec (e : Editor) (env : Env) :
    (env.deserializeOk = true →
      (load e env).1 = { e with container := e.resource.root } ∧
      (∀ n, Ev.deleteRes n ∉ (load e env).2) ∧
      (∀ n, Ev.newRes n ∉ (load e env).2)) ∧
    (env.deserializeOk = false →
      (load e env).1.resource = env.freshRes ∧
      (load e env).1.container = env.freshRes.root ∧
      Ev.deleteRes e.resource.id ∈ (load e env).2 ∧
      Ev.newRes env.freshRes.id ∈ (load e env).2) := by
  cases h : env.deserializeOk
  · refine ⟨fun h2 => Bool.noConfusion h2, fun _ => ?_⟩
    simp [load, h]
  · refine ⟨fun _ => ?_, fun h2 => Bool.noConfusion h2⟩
    refine ⟨by simp [load, h], ?_, ?_⟩ <;> simp [load, h]

/-- Witness for C1: `load` evaluated in a succeeding and in a failing
environment. -/
theorem load_spec_witness :
    ((load edP envW).1 = { edP with container := edP.resource.root } ∧
      (∀ n, Ev.deleteRes n ∉ (load edP envW).2) ∧
      (∀ n, Ev.newRes n ∉ (load edP envW).2)) ∧
    ((load edP envN).1.resource = envN.freshRes ∧
      (load edP envN).1.container = envN.freshRes.root ∧
      Ev.deleteRes edP.resource.id ∈ (load edP envN).2 ∧
      Ev.newRes envN.freshRes.id ∈ (load edP envN).2) :=
  ⟨(load_spec edP envW).1 rfl, (load_spec edP envN).2 rfl⟩

/-- Helper: the write phase opens no dialog. -/
theorem writeOut_trace_dialogs (e : Editor) (env : Env) :
    ∀ x ∈ (writeOut e env).2, x.dialogFilter = none := by
  intro x hx
  simp only [writeOut, List.mem_cons, List.mem_singleton, List.not_mem_nil] at hx
  rcases hx with rfl | rfl | rfl | rfl | h
  · rfl
  · rfl
  · rfl
  · rfl
  · exact absurd h (by simp)

/-- Helper: every dialog event in a `save` trace carries `actFilter`. -/
theorem save_trace_dialogs (e : Editor) (env : Env) :
    ∀ x ∈ (save e env).2, ∀ g, x.dialogFilter = some g → g = actFilter := by
  intro x hx g hg
  unfold save at hx
  by_cases hp : e.path = ""
  · rw [if_pos hp] at hx
    cases hs : env.saveDialog
    · rw [hs] at hx
      simp only [List.mem_singleton] at hx
      subst hx
      simp only [Ev.dialogFilter, Option.some.injEq] at hg
      exact hg.symm
    · rw [hs] at hx
      rcases List.mem_cons.1 hx with rfl | hx2
      · simp only [Ev.dialogFilter, Option.some.injEq] at hg
        exact hg.symm
      · rw [writeOut_trace_dialogs _ _ x hx2] at hg
        exact absurd hg (by simp)
  · rw [if_neg hp] at hx
    rw [writeOut_trace_dialogs _ _ x hx] at hg
    exact absurd hg (by simp)

/-- Helper: every dialog event in a `load` trace carries `actFilter`
(vacuously: `load` opens no dialog). -/
theorem load_trace_dialogs (e : Editor) (env : Env) :
    ∀ x ∈ (load e env).2, x.dialogFilter = none := by
  intro x hx
  unfold load at hx
  cases h : env.deserializeOk <;> rw [h] at hx <;>
    simp only [Bool.false_eq_true, if_false, if_true, List.mem_cons,
      List.mem_singleton, List.not_mem_nil, or_false] at hx
  · rcases hx with rfl | rfl | rfl | rfl | rfl | rfl <;> rfl
  · rcases hx with rfl | rfl | rfl | rfl <;> rfl

/-- C5: every file dialog opened by `save`, `saveAs` (Save As) and
`loadFromFile` (Open) passes the filter `"Animation controllers\0*.act\0"`,
so only `*.act` files are offered. -/
theorem dialogFilter_spec (e : Editor) (env : Env) (ev : Ev) (f : String) :
    (ev ∈ (save e env).2 ∨ ev ∈ (saveAs e env).2 ∨ ev ∈ (loadFromFile e env).2) →
    ev.dialogFilter = some f → f = actFilter := by
  intro hmem hf
  rcases hmem with h | h | h
  · exact save_trace_dialogs e env ev h f hf
  · unfold saveAs at h
    cases hs : env.saveDialog
    · rw [hs] at h
      simp only [List.mem_singleton] at h
      subst h
      simp only [Ev.dialogFilter, Option.some.injEq] at hf
      exact hf.symm
    · rw [hs] at h
      rcases List.mem_cons.1 h with rfl | h2
      · simp only [Ev.dialogFilter, Option.some.injEq] at hf
        exact hf.symm
      · exact save_trace_dialogs _ env ev h2 f hf
  · unfold loadFromFile at h
    cases ho : env.openDialog
    · rw [ho] at h
      simp only [List.mem_singleton] at h
      subst h
      simp only [Ev.dialogFilter, Option.some.injEq] at hf
      exact hf.symm
    · rw [ho] at h
      rcases List.mem_cons.1 h with rfl | h2
      · simp only [Ev.dialogFilter, Option.some.injEq] at hf
        exact hf.symm
      · rw [load_trace_dialogs _ env ev h2] at hf
        exact absurd hf (by simp)

/-- Witness for C5: the dialog event of a concrete `save` run carries the
`actFilter` string. -/
theorem dialogFilter_spec_witness :
    (Ev.saveDialog actFilter ∈ (save edW envW).2 ∨
      Ev.saveDialog actFilter ∈ (saveAs edW envW).2 ∨
      Ev.saveDialog actFilter ∈ (loadFromFile edW envW).2) ∧
    (Ev.saveDialog actFilter).dialogFilter = some actFilter ∧
    actFilter = actFilter :=
  ⟨Or.inl (by simp [save, edW, envW]), rfl,
    dialogFilter_spec edW envW (Ev.saveDialog actFilter) actFilter
      (Or.inl (by simp [save, edW, envW])) rfl⟩

/-- Helper: `save` logs nothing. -/
theorem save_trace_no_log (e : Editor) (env : Env) (m : String) :
    Ev.logError m ∉ (save e env).2 := by
  intro hm
  unfold save writeOut at hm
  by_cases hp : e.path = "" <;> cases hs : env.saveDialog <;>
    simp [hp, hs] at hm

/-- Helper: `load` logs nothing. -/
theorem load_trace_no_log (e : Editor) (env : Env) (m : String) :
    Ev.logError m ∉ (load e env).2 := by
  intro hm
  unfold load at hm
  cases h : env.deserializeOk <;> simp [h] at hm

/-- C4: the editor operations surface no error value: the results of the
`OsFile` `open`/`read`/`write` calls are never consulted — changing them
changes nothing about any operation — and no operation's trace contains a
log call (failures are silently ignored). -/
theorem fileResults_ignored (e : Editor) (env : Env) (fr : FileResults) :
    save e { env with fileResults := fr } = save e env ∧
    saveAs e { env with fileResults := fr } = saveAs e env ∧
    load e { env with fileResults := fr } = load e env ∧
    loadFromFile e { env with fileResults := fr } = loadFromFile e env ∧
    loadFromEntity e { env with fileResults := fr } = loadFromEntity e env ∧
    (∀ m, Ev.logError m ∉ (save e env).2) ∧
    (∀ m, Ev.logError m ∉ (saveAs e env).2) ∧
    (∀ m, Ev.logError m ∉ (load e env).2) ∧
    (∀ m, Ev.logError m ∉ (loadFromFile e env).2) ∧
    (∀ m, Ev.logError m ∉ (loadFromEntity e env).2) := by
  refine ⟨rfl, rfl, rfl, rfl, rfl, fun m => save_trace_no_log e env m, ?_, fun m => load_trace_no_log e env m, ?_, ?_⟩
  · intro m hm
    unfold saveAs at hm
    cases hs : env.saveDialog <;> rw [hs] at hm
    · simp at hm
    · rcases List.mem_cons.1 hm with h | h
      · exact absurd h (by simp)
      · exact save_trace_no_log _ env m h
  · intro m hm
    unfold loadFromFile at hm
    cases ho : env.openDialog <;> rw [ho] at hm
    · simp at hm
    · rcases List.mem_cons.1 hm with h | h
      · exact absurd h (by simp)
      · exact load_trace_no_log _ env m h
  · intro m hm
    unfold loadFromEntity at hm
    cases hc : env.controllerSource <;> rw [hc] at hm
    · simp at hm
    · exact load_trace_no_log _ env m hm

/-- Witness for C4: in a concrete environment, flipping all `OsFile` results
changes nothing about `save` or `load`, and a concrete `save` trace contains
no log event. -/
theorem fileResults_ignored_witness :
    save edW { envW with fileResults := ⟨false, false, false⟩ } = save edW envW ∧
    load edW { envW with fileResults := ⟨false, false, false⟩ } = load edW envW ∧
    (∀ m, Ev.logError m ∉ (save edW envW).2) :=
  ⟨(fileResults_ignored edW envW ⟨false, false, false⟩).1,
    (fileResults_ignored edW envW ⟨false, false, false⟩).2.2.1,
    (fileResults_ignored edW envW ⟨false, false, false⟩).2.2.2.2.2.1⟩

/-- C2: `save` opens a dialog exactly when the current path is empty and
returns without writing when that dialog is cancelled; otherwise it
serializes the resource to a blob and writes the blob to the current path
(the freshly chosen one when the dialog ran).  `saveAs` always prompts and
on confirmation performs the same `save` on the chosen path.
`newController` resets the current path to empty, so the next `save`
prompts. -/
theorem save_path_spec (e : Editor) (env : Env) :
    (e.path ≠ "" →
      save e env =
        (e, [.serialize, .fileOpen e.path "CREATE_AND_WRITE",
          .fileWrite (env.serializeBlob e.resource), .fileClose])) ∧
    (e.path ≠ "" → ∀ f, Ev.saveDialog f ∉ (save e env).2) ∧
    (e.path = "" → Ev.saveDialog actFilter ∈ (save e env).2) ∧
    (e.path = "" → env.saveDialog = none →
      (save e env).1 = e ∧ ∀ d, Ev.fileWrite d ∉ (save e env).2) ∧
    (∀ p, e.path = "" → env.saveDialog = some p →
      save e env =
        ({ e with path := p },
          [.saveDialog actFilter, .serialize, .fileOpen p "CREATE_AND_WRITE",
            .fileWrite (env.serializeBlob e.resource), .fileClose])) ∧
    (env.saveDialog = none →
      (saveAs e env).1 = e ∧ (∀ d, Ev.fileWrite d ∉ (saveAs e env).2) ∧
      Ev.saveDialog actFilter ∈ (saveAs e env).2) ∧
    (∀ p, env.saveDialog = some p →
      saveAs e env = ((save { e with path := p } env).1,
        .saveDialog actFilter :: (save { e with path := p } env).2)) ∧
    ((newController e env).1.path = "") := by
  refine ⟨?_, ?_, ?_, ?_, ?_, ?_, ?_, rfl⟩
  · intro hp
    simp [save, writeOut, hp]
  · intro hp f
    simp [save, writeOut, hp]
  · intro hp
    cases hs : env.saveDialog <;> simp [save, writeOut, hp, hs]
  · intro hp hs
    simp [save, writeOut, hp, hs]
  · intro p hp hs
    simp [save, writeOut, hp, hs]
  · intro hs
    simp [saveAs, hs]
  · intro p hs
    simp [saveAs, hs]

/-- Witness for C2: a concrete nonempty-path save writes without a dialog; a
cancelled dialog on an empty path writes nothing; a confirmed dialog writes
to the chosen path. -/
theorem save_path_spec_witness :
    save edP envW =
      (edP, [.serialize, .fileOpen edP.path "CREATE_AND_WRITE",
        .fileWrite (envW.serializeBlob edP.resource), .fileClose]) ∧
    ((save edW envN).1 = edW ∧ ∀ d, Ev.fileWrite d ∉ (save edW envN).2) ∧
    save edW envW =
      ({ edW with path := "a.act" },
        [.saveDialog actFilter, .serialize, .fileOpen "a.act" "CREATE_AND_WRITE",
          .fileWrite (envW.serializeBlob edW.resource), .fileClose]) ∧
    (newController edW envW).1.path = "" :=
  ⟨(save_path_spec edP envW).1 (by simp [edP]),
    (save_path_spec edW envN).2.2.2.1 rfl rfl,
    (save_path_spec edW envW).2.2.2.2.1 "a.act" rfl rfl,
    (save_path_spec edW envW).2.2.2.2.2.2.2⟩

/-- Helper: `save` renders no menu item. -/
theorem save_menuLabels (e : Editor) (env : Env) :
    (save e env).2.filterMap Ev.menuLabel? = [] := by
  unfold save writeOut
  by_cases hp : e.path = "" <;> cases hs : env.saveDialog <;>
    simp [hp, hs, Ev.menuLabel?]

/-- Helper: `saveAs` renders no menu item. -/
theorem saveAs_menuLabels (e : Editor) (env : Env) :
    (saveAs e env).2.filterMap Ev.menuLabel? = [] := by
  unfold saveAs
  cases hs : env.saveDialog <;> simp [hs, Ev.menuLabel?, save_menuLabels]

/-- Helper: `load` renders no menu item. -/
theorem load_menuLabels (e : Editor) (env : Env) :
    (load e env).2.filterMap Ev.menuLabel? = [] := by
  unfold load
  cases h : env.deserializeOk <;> simp [h, Ev.menuLabel?]

/-- Helper: `loadFromFile` renders no menu item. -/
theorem loadFromFile_menuLabels (e : Editor) (env : Env) :
    (loadFromFile e env).2.filterMap Ev.menuLabel? = [] := by
  unfold loadFromFile
  cases ho : env.openDialog <;> simp [ho, Ev.menuLabel?, load_menuLabels]

/-- Helper: `loadFromEntity` renders no menu item. -/
theorem loadFromEntity_menuLabels (e : Editor) (env : Env) :
    (loadFromEntity e env).2.filterMap Ev.menuLabel? = [] := by
  unfold loadFromEntity
  cases hc : env.controllerSource <;> simp [hc, Ev.menuLabel?, load_menuLabels]

/-- Helper: `newController` renders no menu item. -/
theorem newController_menuLabels (e : Editor) (env : Env) :
    (newController e env).2.filterMap Ev.menuLabel? = [] := by
  simp [newController, Ev.menuLabel?]

/-- Helper: `save` emits only operation events. -/
theorem save_opsOf (e : Editor) (env : Env) :
    opsOf (save e env).2 = (save e env).2 := by
  unfold opsOf save writeOut
  by_cases hp : e.path = "" <;> cases hs : env.saveDialog <;>
    simp [hp, hs, Ev.menuLabel?]

/-- Helper: `saveAs` emits only operation events. -/
theorem saveAs_opsOf (e : Editor) (env : Env) :
    opsOf (saveAs e env).2 = (saveAs e env).2 := by
  unfold saveAs
  cases hs : env.saveDialog
  · simp [hs, opsOf, Ev.menuLabel?]
  · simpa [opsOf, Ev.menuLabel?] using save_opsOf _ env

/-- Helper: `load` emits only operation events. -/
theorem load_opsOf (e : Editor) (env : Env) :
    opsOf (load e env).2 = (load e env).2 := by
  unfold opsOf load
  cases h : env.deserializeOk <;> simp [h, Ev.menuLabel?]

/-- Helper: `loadFromFile` emits only operation events. -/
theorem loadFromFile_opsOf (e : Editor) (env : Env) :
    opsOf (loadFromFile e env).2 = (loadFromFile e env).2 := by
  unfold loadFromFile
  cases ho : env.openDialog
  · simp [opsOf, Ev.menuLabel?]
  · simpa [opsOf, Ev.menuLabel?] using load_opsOf _ env

/-- Helper: `loadFromEntity` emits only operation events. -/
theorem loadFromEntity_opsOf (e : Editor) (env : Env) :
    opsOf (loadFromEntity e env).2 = (loadFromEntity e env).2 := by
  unfold loadFromEntity
  cases hc : env.controllerSource
  · simp [opsOf]
  · simpa [opsOf, Ev.menuLabel?] using load_opsOf _ env

/-- Helper: `newController` emits only operation events. -/
theorem newController_opsOf (e : Editor) (env : Env) :
    opsOf (newController e env).2 = (newController e env).2 := by
  simp [newController, opsOf, Ev.menuLabel?]

/-- Helper: `opsOf` distributes over append. -/
theorem opsOf_append (l1 l2 : List Ev) :
    opsOf (l1 ++ l2) = opsOf l1 ++ opsOf l2 := by
  simp [opsOf, List.filter_append]

/-- Helper: `opsOf` drops a leading menu-item event. -/
theorem opsOf_cons_menu (s : String) (l : List Ev) :
    opsOf (Ev.menuItem s :: l) = opsOf l := by
  simp [opsOf, Ev.menuLabel?]

/-- Helper: `opsOf` of the empty trace. -/
theorem opsOf_nil : opsOf [] = [] := rfl

/-- C3: the File menu renders exactly the five items `New`, `Save`,
`Save As`, `Open`, `Open from selected entity`, in source order and no
others, and clicking each one invokes respectively `newController`, `save`,
`saveAs`, `loadFromFile` and `loadFromEntity`: the frame ends in that
operation's editor state and its operation events are exactly that
operation's trace. -/
theorem fileMenu_spec (e : Editor) (env : Env) :
    (∀ clicked, (fileMenuGUI e clicked env).2.filterMap Ev.menuLabel? =
      ["New", "Save", "Save As", "Open", "Open from selected entity"]) ∧
    ((fileMenuGUI e (fun l => l == "New") env).1 = (newController e env).1 ∧
      opsOf (fileMenuGUI e (fun l => l == "New") env).2 = (newController e env).2) ∧
    ((fileMenuGUI e (fun l => l == "Save") env).1 = (save e env).1 ∧
      opsOf (fileMenuGUI e (fun l => l == "Save") env).2 = (save e env).2) ∧
    ((fileMenuGUI e (fun l => l == "Save As") env).1 = (saveAs e env).1 ∧
      opsOf (fileMenuGUI e (fun l => l == "Save As") env).2 = (saveAs e env).2) ∧
    ((fileMenuGUI e (fun l => l == "Open") env).1 = (loadFromFile e env).1 ∧
      opsOf (fileMenuGUI e (fun l => l == "Open") env).2 = (loadFromFile e env).2) ∧
    ((fileMenuGUI e (fun l => l == "Open from selected entity") env).1 =
        (loadFromEntity e env).1 ∧
      opsOf (fileMenuGUI e (fun l => l == "Open from selected entity") env).2 =
        (loadFromEntity e env).2) := by
  refine ⟨?_, ⟨?_, ?_⟩, ⟨?_, ?_⟩, ⟨?_, ?_⟩, ⟨?_, ?_⟩, ⟨?_, ?_⟩⟩
  · intro clicked
    unfold fileMenuGUI
    cases h1 : clicked "New" <;> cases h2 : clicked "Save" <;>
      cases h3 : clicked "Save As" <;> cases h4 : clicked "Open" <;>
      cases h5 : clicked "Open from selected entity" <;>
      simp [h1, h2, h3, h4, h5, List.filterMap_cons, List.filterMap_append,
        Ev.menuLabel?, save_menuLabels, saveAs_menuLabels, load_menuLabels,
        loadFromFile_menuLabels, loadFromEntity_menuLabels,
        newController_menuLabels]
  all_goals
    simp [fileMenuGUI, opsOf_append, opsOf_cons_menu, opsOf_nil,
      save_opsOf, saveAs_opsOf, load_opsOf, loadFromFile_opsOf,
      loadFromEntity_opsOf, newController_opsOf]

/-- Witness for C3: the first conjunct applied to the never-clicked frame of
a concrete editor and environment. -/
theorem fileMenu_spec_witness :
    (fileMenuGUI edW (fun _ => false) envW).2.filterMap Ev.menuLabel? =
      ["New", "Save", "Save As", "Open", "Open from selected entity"] :=
  (fileMenu_spec edW envW).1 (fun _ => false)

/-- Helper: setting a list entry to its current value changes nothing. -/
theorem list_set_self {α : Type} (l : List α) (i : Nat) (h : i < l.length) :
    l.set i l[i] = l := by
  apply List.ext_getElem
  · simp
  · intro j h1 h2
    simp only [List.getElem_set]
    split
    · next hij => cases hij; rfl
    · rfl

/-- C8: renaming slot `i` is atomic with respect to duplicates: when some
other slot already carries the entered name, slots and animation-set entries
are left completely unchanged and an error is logged; otherwise every
animation-set entry hashed with the old name of slot `i` is re-hashed to the
new name and slot `i` is renamed.  (When the entered name equals slot `i`'s
own current name the source also takes the unchanged branch, which coincides
with the rewrite branch, a no-op in that case.) -/
theorem renameSlot_spec (crc : String → Nat) (slots : List String)
    (animSet : List AnimSetEntry) (i : Nat) (h : i < slots.length)
    (newName : String) :
    ((∃ j, ∃ hj : j < slots.length, j ≠ i ∧ slots[j] = newName) →
      renameSlot crc slots animSet i newName = ((slots, animSet), true)) ∧
    ((∀ j (hj : j < slots.length), j ≠ i → slots[j] ≠ newName) →
      (renameSlot crc slots animSet i newName).1 =
        (slots.set i newName,
          animSet.map fun entry =>
            if entry.hash = crc slots[i] then { entry with hash := crc newName }
            else entry)) := by
  by_cases hany : slots.any (fun v => v == newName) = true
  · have hr : renameSlot crc slots animSet i newName = ((slots, animSet), true) := by
      simp [renameSlot, hany]
    refine ⟨fun _ => hr, fun hno => ?_⟩
    obtain ⟨v, hv, hveq⟩ := List.any_eq_true.1 hany
    obtain ⟨j, hj, hjv⟩ := List.mem_iff_getElem.1 hv
    have hveq2 : v = newName := by simpa using hveq
    have hji : j = i := by
      by_contra hne
      exact hno j hj hne (hjv.trans hveq2)
    have hsi : slots[i] = newName := by
      subst hji
      exact hjv.trans hveq2
    rw [hr]
    have hset : slots.set i newName = slots := by
      rw [← hsi]; exact list_set_self slots i h
    have hmap : (animSet.map fun entry =>
        if entry.hash = crc slots[i] then { entry with hash := crc newName }
        else entry) = animSet := by
      have hcongr : ∀ entry ∈ animSet,
          (if entry.hash = crc slots[i] then { entry with hash := crc newName }
            else entry) = id entry := by
        intro entry _
        by_cases hh : entry.hash = crc slots[i]
        · rw [if_pos hh]
          cases entry with
          | mk s ha an => simp_all [hsi]
        · rw [if_neg hh]; rfl
      rw [List.map_congr_left hcongr, List.map_id]
    rw [hset, hmap]
  · have hanyf : slots.any (fun v => v == newName) = false :=
      Bool.not_eq_true _ ▸ (by simpa using hany)
    constructor
    · rintro ⟨j, hj, _, hjeq⟩
      refine absurd (List.any_eq_true.2 ⟨slots[j], List.getElem_mem hj, ?_⟩) hany
      simp [hjeq]
    · intro _
      have hopt : slots[i]? = some slots[i] := List.getElem?_eq_getElem h
      simp [renameSlot, hanyf, hopt]

/-- Witness for C8: renaming slot 0 of `["a", "b"]` to the existing name
`"b"` changes nothing, while renaming it to the fresh name `"cc"` rewrites
the matching animation-set hash and the slot name. -/
theorem renameSlot_spec_witness :
    renameSlot String.length ["a", "b"] [⟨0, 1, none⟩, ⟨0, 9, none⟩] 0 "b" =
      ((["a", "b"], [⟨0, 1, none⟩, ⟨0, 9, none⟩]), true) ∧
    (renameSlot String.length ["a", "b"] [⟨0, 1, none⟩, ⟨0, 9, none⟩] 0 "cc").1 =
      (["a", "b"].set 0 "cc",
        [AnimSetEntry.mk 0 1 none, AnimSetEntry.mk 0 9 none].map fun entry =>
          if entry.hash = String.length "a" then { entry with hash := String.length "cc" }
          else entry) :=
  ⟨(renameSlot_spec String.length ["a", "b"] [⟨0, 1, none⟩, ⟨0, 9, none⟩] 0
        (by decide) "b").1 ⟨1, by decide, by decide, rfl⟩,
    (renameSlot_spec String.length ["a", "b"] [⟨0, 1, none⟩, ⟨0, 9, none⟩] 0
        (by decide) "cc").2 (by decide)⟩

/-- Helper: `find?` returns the element at the first satisfying index. -/
theorem find?_first {α : Type} (p : α → Bool) (l : List α) :
    ∀ (i : Nat) (h : i < l.length), p l[i] = true →
      (∀ j (hj : j < l.length), j < i → p l[j] = false) →
      l.find? p = some l[i] := by
  induction l with
  | nil => intro i h; simp at h
  | cons a tl ih =>
    intro i h hp hbef
    cases i with
    | zero =>
      simp only [List.getElem_cons_zero] at hp ⊢
      rw [List.find?_cons_of_pos _ hp]
    | succ k =>
      have ha : p a = false := by
        have := hbef 0 (by simp) (by omega)
        simpa using this
      rw [List.find?_cons_of_neg _ (by simp [ha])]
      simp only [List.getElem_cons_succ]
      exact ih k (by simpa using h) (by simpa using hp)
        (fun j hj hjk => by
          have := hbef (j + 1) (by simpa using hj) (by omega)
          simpa using this)

/-- C9: `getEventType` returns the first registered event type whose tag
equals the argument and falls back to the entry at index 0 when nothing
matches; it is well defined (returns an entry) on every nonempty list, and
the list is nonempty for every constructed editor: the constructor's
`m_event_types` is the singleton registered for `"set_input"` and
`createEventType` never empties the list. -/
theorem getEventType_spec :
    (∀ (ets : List EventType) (t : Nat) (i : Nat) (h : i < ets.length),
      (ets[i]).type = t →
      (∀ j (hj : j < ets.length), j < i → (ets[j]).type ≠ t) →
      getEventType ets t = some ets[i]) ∧
    (∀ (ets : List EventType) (t : Nat), (∀ et ∈ ets, et.type ≠ t) →
      getEventType ets t = ets.head?) ∧
    (∀ (ets : List EventType) (t : Nat), ets ≠ [] →
      ∃ et, getEventType ets t = some et) ∧
    (∀ (crc : String → Nat) (sz : Nat), initEventTypes crc sz ≠ [] ∧
      (initEventTypes crc sz).head? =
        some ⟨crc "set_input", sz, "Set Input"⟩) ∧
    (∀ (ets : List EventType) (crc : String → Nat) (s : String),
      createEventType ets crc s ≠ []) := by
  refine ⟨?_, ?_, ?_, ?_, ?_⟩
  · intro ets t i h hp hbef
    have hf : ets.find? (fun et => et.type == t) = some ets[i] :=
      find?_first _ ets i h (by simpa using hp)
        (fun j hj hji => by simpa using hbef j hj hji)
    simp [getEventType, hf]
  · intro ets t hmem
    have hf : ets.find? (fun et => et.type == t) = none :=
      List.find?_eq_none.2 (fun x hx => by simpa using hmem x hx)
    simp [getEventType, hf]
  · intro ets t hne
    cases ets with
    | nil => exact absurd rfl hne
    | cons a tl =>
      cases hf : (a :: tl).find? (fun et => et.type == t) with
      | none => exact ⟨a, by simp [getEventType, hf]⟩
      | some e => exact ⟨e, by simp [getEventType, hf]⟩
  · intro crc sz
    exact ⟨by simp [initEventTypes], by simp [initEventTypes]⟩
  · intro ets crc s
    simp [createEventType]

/-- Witness for C9: on a concrete two-entry list, tag 7 selects the second
entry (first match), a missing tag falls back to index 0, and the
constructor's list answers every query. -/
theorem getEventType_spec_witness :
    getEventType [⟨5, 0, ""⟩, ⟨7, 0, ""⟩] 7 = some (⟨7, 0, ""⟩ : EventType) ∧
    getEventType [⟨5, 0, ""⟩, ⟨7, 0, ""⟩] 9 = some (⟨5, 0, ""⟩ : EventType) ∧
    (∃ et, getEventType (initEventTypes String.length 8) 3 = some et) :=
  ⟨(getEventType_spec.1 [⟨5, 0, ""⟩, ⟨7, 0, ""⟩] 7 1 (by decide) (by decide)
      (by decide)),
    (getEventType_spec.2.1 [⟨5, 0, ""⟩, ⟨7, 0, ""⟩] 9 (by decide)),
    (getEventType_spec.2.2.1 (initEventTypes String.length 8) 3
      (by simp [initEventTypes]))⟩

end AnimEd
